import Mathlib

/-!
# Checkout widget (`frontend/src/App.js`)

A shallow embedding of the React component `App`: its two state cells
(`iframeUrl`, `paymentMethod`), the asynchronous handler `initiatePayment`,
the `message` listener installed by `useEffect`, the radio inputs and the
conditional rendering of the payment iframe.

Handlers are embedded as functions that return the list of effects they
perform, in program order, together with how they complete (normally, or by
an uncaught exception).  State setters are effects; the state after a handler
is obtained by applying its effects to the state current at that moment.

Two value types are used: `JValue` for what `JSON.parse` yields and for the
request object, and `MessageData` for `event.data`, which a sender can fill
with values that `JSON.stringify` refuses (a BigInt, an object that contains
itself).
-/

namespace App

/-! ## JavaScript data values -/

/-- JavaScript data values as produced by `JSON.parse`, plus `undefined`:
the type of a parsed response body, of the request object and of the
`iframeUrl` cell. An object holds its own properties in enumeration order,
each key once. Numbers are the integer-valued ones whose `String(n)` is plain
decimal. The data of a message has its own, wider type `MessageData`. -/
inductive JValue where
  | undefined : JValue
  | null : JValue
  | bool (b : Bool) : JValue
  | num (n : Int) : JValue
  | str (s : String) : JValue
  | arr (items : List JValue) : JValue
  | obj (props : List (String × JValue)) : JValue

/-- An exception value: its constructor name and message. -/
structure JsError where
  name : String
  message : String

/-- ToBoolean: `undefined`, `null`, `false`, `0` and `""` are falsy. -/
def truthy : JValue → Bool
  | .undefined => false
  | .null => false
  | .bool b => b
  | .num n => n != 0
  | .str s => s != ""
  | .arr _ => true
  | .obj _ => true

/-- Own-property lookup in a property list. -/
def lookup (key : String) : List (String × JValue) → JValue
  | [] => .undefined
  | (k, v) :: rest => if k = key then v else lookup key rest

/-- The error raised by reading a property of `undefined` or `null`. -/
def cannotRead (key : String) : JsError :=
  { name := "TypeError", message := "Cannot read properties of null or undefined (reading " ++ key ++ ")" }

/-- Property read `v.key` for a key that is not a built-in property of
primitives or arrays (the program reads `payload`, `launchUrl`, `action`):
it throws on `undefined` and `null`, looks the key up in an object, and is
`undefined` on every other value. -/
def getProp (v : JValue) (key : String) : Except JsError JValue :=
  match v with
  | .undefined => .error (cannotRead key)
  | .null => .error (cannotRead key)
  | .obj props => .ok (lookup key props)
  | _ => .ok .undefined

/-! ## `JSON.stringify` and template literals -/

/-- Lower-case hexadecimal digit. -/
def hexDigit (n : Nat) : Char := Nat.digitChar (n % 16)

/-- QuoteJSONString, one code point. -/
def quoteChar (c : Char) : List Char :=
  if c = '"' then ['\\', '"']
  else if c = '\\' then ['\\', '\\']
  else if c = '\x08' then ['\\', 'b']
  else if c = '\x0c' then ['\\', 'f']
  else if c = '\n' then ['\\', 'n']
  else if c = '\r' then ['\\', 'r']
  else if c = '\t' then ['\\', 't']
  else if c.toNat < 32 then ['\\', 'u', '0', '0', hexDigit (c.toNat / 16), hexDigit c.toNat]
  else [c]

/-- QuoteJSONString. -/
def quote (s : String) : String :=
  "\"" ++ String.mk (s.data.flatMap quoteChar) ++ "\""

/-- Decimal rendering of a natural number, as in a template literal. -/
def decimal (n : Nat) : String := Nat.repr n

/-- Number::toString on the integers of the model, used for the request
object (`amount: product.price`); plain decimal is what JavaScript prints for
integers of magnitude below 2^53. -/
def numberToString : Int → String
  | .ofNat n => decimal n
  | .negSucc n => "-" ++ decimal (n + 1)

/-- Join already serialised members with commas. -/
def commaJoin : List String → String
  | [] => ""
  | [x] => x
  | x :: rest => x ++ "," ++ commaJoin rest

mutual
/-- SerializeJSONProperty: `none` stands for the result `undefined`. -/
def stringifyValue : JValue → Option String
  | .undefined => none
  | .null => some "null"
  | .bool b => some (if b then "true" else "false")
  | .num n => some (numberToString n)
  | .str s => some (quote s)
  | .arr items => some ("[" ++ commaJoin (stringifyItems items) ++ "]")
  | .obj props => some ("\x7b" ++ commaJoin (stringifyProps props) ++ "\x7d")
/-- SerializeJSONArray members: an `undefined` member is written `null`. -/
def stringifyItems : List JValue → List String
  | [] => []
  | v :: rest => (stringifyValue v).getD "null" :: stringifyItems rest
/-- SerializeJSONObject members: a property whose value is `undefined` is left out. -/
def stringifyProps : List (String × JValue) → List String
  | [] => []
  | (k, v) :: rest =>
    match stringifyValue v with
    | none => stringifyProps rest
    | some text => (quote k ++ ":" ++ text) :: stringifyProps rest
end

/-- String concatenation `text + v` where `v` is a `JSON.stringify` result. -/
def plusStringified (text : String) (v : Option String) : String :=
  text ++ v.getD "undefined"

/-! ## State, catalog and effects -/

/-- The two state cells of `App` (lines 5-6). -/
structure AppState where
  iframeUrl : JValue
  paymentMethod : String

/-- Initial values given to `useState`. -/
def initialState : AppState :=
  { iframeUrl := .null, paymentMethod := "mpesa" }

/-- A catalog entry. -/
structure Product where
  id : Nat
  name : String
  price : Nat

/-- The `products` array (lines 8-12). -/
def products : List Product :=
  [ { id := 1, name := "Product A", price := 1 },
    { id := 2, name := "Product B", price := 2 },
    { id := 3, name := "Product C", price := 3 } ]

/-- Arguments of one `fetch` call; `body` is the serialised text. -/
structure FetchCall where
  url : String
  method : String
  headers : List (String × String)
  body : Option String

/-- What a handler does to the outside world and to the state cells. -/
inductive Effect where
  | fetch (call : FetchCall) : Effect
  | consoleLog (label : String) (v : JValue) : Effect
  | consoleError (err : JsError) : Effect
  | alert (text : String) : Effect
  | setIframeUrl (v : JValue) : Effect
  | setPaymentMethod (v : String) : Effect

/-- One run of a handler: its effects in order, and its completion. -/
structure Run where
  effects : List Effect
  completion : Except JsError Unit

/-- Effect of one action on the state cells. -/
def applyEffect (s : AppState) : Effect → AppState
  | .setIframeUrl v => { s with iframeUrl := v }
  | .setPaymentMethod v => { s with paymentMethod := v }
  | _ => s

/-- State after a run that starts in `s`. -/
def after (s : AppState) (r : Run) : AppState :=
  r.effects.foldl applyEffect s

/-- Texts shown by `alert` during a list of effects. -/
def alertsOf : List Effect → List String
  | [] => []
  | .alert text :: rest => text :: alertsOf rest
  | _ :: rest => alertsOf rest

/-- Calls to `fetch` made during a list of effects. -/
def fetchesOf : List Effect → List FetchCall
  | [] => []
  | .fetch call :: rest => call :: fetchesOf rest
  | _ :: rest => fetchesOf rest

/-- Errors written with `console.error` during a list of effects. -/
def errorsLogged : List Effect → List JsError
  | [] => []
  | .consoleError err :: rest => err :: errorsLogged rest
  | _ :: rest => errorsLogged rest

/-! ## `initiatePayment` (lines 14-38) -/

/-- How the awaited network exchange ends: `fetch` rejects, `res.json()`
rejects, or the body parses to a value. -/
inductive FetchOutcome where
  | fetchRejected (err : JsError) : FetchOutcome
  | jsonRejected (err : JsError) : FetchOutcome
  | parsed (data : JValue) : FetchOutcome

/-- Template literal on line 20. -/
def referenceNo (product : Product) (now : Nat) : String :=
  "order-" ++ decimal product.id ++ "-" ++ decimal now

/-- The object literal passed to `JSON.stringify` (lines 19-24). -/
def requestBody (paymentMethod : String) (product : Product) (now : Nat) : JValue :=
  .obj [ ("reference_no", .str (referenceNo product now)),
         ("amount", .num (Int.ofNat product.price)),
         ("payment_method", .str paymentMethod),
         ("currency", .str "KES") ]

/-- The `fetch` call of lines 16-25. -/
def initiateCall (paymentMethod : String) (product : Product) (now : Nat) : FetchCall :=
  { url := "/initiate-payment",
    method := "POST",
    headers := [("Content-Type", "application/json")],
    body := stringifyValue (requestBody paymentMethod product now) }

/-- Lines 30-34: the test `data.payload && data.payload.launchUrl` and its two branches. -/
def onData (data : JValue) : Run :=
  match getProp data "payload" with
  | .error e => { effects := [], completion := .error e }
  | .ok payload =>
    if truthy payload then
      match getProp payload "launchUrl" with
      | .error e => { effects := [], completion := .error e }
      | .ok launchUrl =>
        if truthy launchUrl then
          { effects := [.setIframeUrl launchUrl], completion := .ok () }
        else
          { effects := [.alert "Payment initialization failed"], completion := .ok () }
    else
      { effects := [.alert "Payment initialization failed"], completion := .ok () }

/-- The body of the `try` block (lines 16-34) after the call has been issued. -/
def tryBlock (outcome : FetchOutcome) : Run :=
  match outcome with
  | .fetchRejected err => { effects := [], completion := .error err }
  | .jsonRejected err => { effects := [], completion := .error err }
  | .parsed data =>
    let rest := onData data
    { effects := .consoleLog "Response:" data :: rest.effects, completion := rest.completion }

/-- The handler `try ... catch (err) ...` wrapped around a block (lines 35-37). -/
def catchAll (block : Run) : Run :=
  match block.completion with
  | .ok () => block
  | .error err => { effects := block.effects ++ [.consoleError err], completion := .ok () }

/-- The handler `initiatePayment(product)`: `paymentMethod` is the value
captured by the closure, `now` the reading of `Date.now()`, `outcome` the end
of the awaited exchange. -/
def initiatePayment (paymentMethod : String) (product : Product) (now : Nat)
    (outcome : FetchOutcome) : Run :=
  let block := tryBlock outcome
  catchAll { effects := .fetch (initiateCall paymentMethod product now) :: block.effects,
             completion := block.completion }

/-! ## Message data -/

/-- A Number inside message data, as `JSON.stringify` sees it: a finite
number is given by the text that Number::toString yields for it; `NaN` and
the infinities are not finite and are written `null`. -/
inductive JNumber where
  | finite (text : String) : JNumber
  | notFinite : JNumber

/-- The value of `event.data`, a structured clone of what the sender posted:
primitives (BigInt among them), arrays and plain objects. An object holds its
own properties in enumeration order, each key once. `cycle up` stands inside
an array or object, never at the top, and is a reference back to the array or
object `up` levels above it, so data that contains itself is a value of this
type. -/
inductive MessageData where
  | undefined : MessageData
  | null : MessageData
  | bool (b : Bool) : MessageData
  | num (n : JNumber) : MessageData
  | bigint (n : Int) : MessageData
  | str (s : String) : MessageData
  | arr (items : List MessageData) : MessageData
  | obj (props : List (String × MessageData)) : MessageData
  | cycle (up : Nat) : MessageData

/-- Own-property lookup in the property list of a message object. -/
def MessageData.lookup (key : String) : List (String × MessageData) → MessageData
  | [] => .undefined
  | (k, v) :: rest => if k = key then v else MessageData.lookup key rest

/-- Property read `v.key` on message data, for a key that is not a built-in
property of primitives or arrays (the listener reads `action`): it throws on
`undefined` and `null`, looks the key up in an object, and is `undefined` on
every other value. -/
def MessageData.getProp (v : MessageData) (key : String) : Except JsError MessageData :=
  match v with
  | .undefined => .error (cannotRead key)
  | .null => .error (cannotRead key)
  | .obj props => .ok (MessageData.lookup key props)
  | _ => .ok .undefined

/-- The TypeError of `JSON.stringify` on a BigInt. -/
def bigIntError : JsError :=
  { name := "TypeError", message := "Do not know how to serialize a BigInt" }

/-- The TypeError of `JSON.stringify` on an object that contains itself. -/
def circularError : JsError :=
  { name := "TypeError", message := "Converting circular structure to JSON" }

mutual
/-- The built-in `JSON.stringify` on message data: it throws on a BigInt and
on a reference back to an enclosing value; `none` stands for the result
`undefined`. -/
def MessageData.stringify : MessageData → Except JsError (Option String)
  | .undefined => .ok none
  | .null => .ok (some "null")
  | .bool b => .ok (some (if b then "true" else "false"))
  | .num (.finite text) => .ok (some text)
  | .num .notFinite => .ok (some "null")
  | .bigint _ => .error bigIntError
  | .str s => .ok (some (quote s))
  | .arr items =>
    match MessageData.stringifyItems items with
    | .error e => .error e
    | .ok members => .ok (some ("[" ++ commaJoin members ++ "]"))
  | .obj props =>
    match MessageData.stringifyProps props with
    | .error e => .error e
    | .ok members => .ok (some ("\x7b" ++ commaJoin members ++ "\x7d"))
  | .cycle _ => .error circularError
/-- Members of an array, in order: an `undefined` member is written `null`. -/
def MessageData.stringifyItems : List MessageData → Except JsError (List String)
  | [] => .ok []
  | v :: rest =>
    match MessageData.stringify v with
    | .error e => .error e
    | .ok text =>
      match MessageData.stringifyItems rest with
      | .error e => .error e
      | .ok members => .ok (text.getD "null" :: members)
/-- Members of an object, in order: a property whose value is `undefined` is left out. -/
def MessageData.stringifyProps : List (String × MessageData) → Except JsError (List String)
  | [] => .ok []
  | (k, v) :: rest =>
    match MessageData.stringify v with
    | .error e => .error e
    | .ok none => MessageData.stringifyProps rest
    | .ok (some text) =>
      match MessageData.stringifyProps rest with
      | .error e => .error e
      | .ok members => .ok ((quote k ++ ":" ++ text) :: members)
end

mutual
/-- Message data that holds no BigInt and no reference back to an enclosing
value, at any depth. -/
def MessageData.serialisable : MessageData → Bool
  | .bigint _ => false
  | .cycle _ => false
  | .arr items => MessageData.serialisableItems items
  | .obj props => MessageData.serialisableProps props
  | _ => true
/-- Every member of an array is serialisable. -/
def MessageData.serialisableItems : List MessageData → Bool
  | [] => true
  | v :: rest => MessageData.serialisable v && MessageData.serialisableItems rest
/-- Every property value of an object is serialisable. -/
def MessageData.serialisableProps : List (String × MessageData) → Bool
  | [] => true
  | (_, v) :: rest => MessageData.serialisable v && MessageData.serialisableProps rest
end

/-! ## The `message` listener (lines 41-49) -/

/-- Strict equality `v === text` against a string literal. -/
def strictEqString (v : MessageData) (text : String) : Bool :=
  match v with
  | .str t => t == text
  | _ => false

/-- The listener applied to `event.data`: each comparison reads
`event.data.action` anew; in the first branch the argument of `alert` is
evaluated, `JSON.stringify` included, before `alert` and `setIframeUrl` run. -/
def handleFrameMessage (data : MessageData) : Run :=
  match data.getProp "action" with
  | .error e => { effects := [], completion := .error e }
  | .ok action =>
    if strictEqString action "success" then
      match data.stringify with
      | .error e => { effects := [], completion := .error e }
      | .ok text =>
        { effects := [.alert (plusStringified "Payment Successful: " text),
                      .setIframeUrl .null],
          completion := .ok () }
    else
      match data.getProp "action" with
      | .error e => { effects := [], completion := .error e }
      | .ok again =>
        if strictEqString again "cancel" then
          { effects := [.alert "Payment Cancelled", .setIframeUrl .null], completion := .ok () }
        else
          { effects := [], completion := .ok () }

/-! ## Radio inputs and rendering -/

/-- The two radio inputs (lines 60-65 and 69-74). -/
inductive RadioOption where
  | mpesa : RadioOption
  | card : RadioOption

/-- The `value` attribute of a radio input. -/
def RadioOption.value : RadioOption → String
  | .mpesa => "mpesa"
  | .card => "card"

/-- The `onChange` handler of a radio input. -/
def selectMethod (o : RadioOption) : Run :=
  { effects := [.setPaymentMethod o.value], completion := .ok () }

/-- What `iframeUrl && (<iframe .../>)` evaluates to (lines 91-97): the
iframe element, or the falsy state value itself. -/
inductive PanelChild where
  | iframe (src : JValue) (title : String) (className : String) : PanelChild
  | leftover (v : JValue) : PanelChild

/-- The child expression of the right panel. -/
def renderRightPanel (s : AppState) : PanelChild :=
  if truthy s.iframeUrl then .iframe s.iframeUrl "Pesapal Payment" "payment-iframe"
  else .leftover s.iframeUrl

/-- The source of the embedded frame, when one is rendered. -/
def PanelChild.frameSrc : PanelChild → Option JValue
  | .iframe src _ _ => some src
  | .leftover _ => none

/-! ## Runs of the component -/

/-- Something that happens to the mounted component: a radio input changes,
an `initiatePayment` invocation reaches its end, a message arrives. -/
inductive Event where
  | select (o : RadioOption) : Event
  | paid (paymentMethod : String) (product : Product) (now : Nat) (outcome : FetchOutcome) : Event
  | message (data : MessageData) : Event

/-- The handler run triggered by an event. -/
def Event.run : Event → Run
  | .select o => selectMethod o
  | .paid m product now outcome => initiatePayment m product now outcome
  | .message data => handleFrameMessage data

/-- State after one event. -/
def step (s : AppState) (e : Event) : AppState := after s e.run

/-- State after a sequence of events. -/
def runEvents (s : AppState) (es : List Event) : AppState := es.foldl step s

/-- The value of the radio input changed last, `"mpesa"` when none was. -/
def lastSelected (es : List Event) : String :=
  es.foldl (fun m e => match e with
    | .select o => o.value
    | _ => m) "mpesa"

/-- The click handler of a "Pay Now" button rendered in state `s` (line 83):
the closure holds the `paymentMethod` of that render. -/
def clickPay (s : AppState) (product : Product) (now : Nat) (outcome : FetchOutcome) : Run :=
  initiatePayment s.paymentMethod product now outcome

/-- Whether the embedded frame is part of the rendered layout. -/
def frameShown (s : AppState) : Bool :=
  (renderRightPanel s).frameSrc.isSome
/-- The launch URL that a finished exchange delivers, when it delivers one:
the truthy `launchUrl` of the object `payload` of a parsed object. -/
def launchUrlOf : FetchOutcome → Option JValue
  | .parsed (.obj props) =>
    match lookup "payload" props with
    | .obj inner =>
      if truthy (lookup "launchUrl" inner) then some (lookup "launchUrl" inner) else none
    | _ => none
  | _ => none

/-- The last delivered launch URL of a sequence of finished exchanges, in the
order in which they finish. -/
def lastLaunchUrl : List FetchOutcome → Option JValue
  | [] => none
  | o :: rest =>
    match lastLaunchUrl rest with
    | some u => some u
    | none => launchUrlOf o

/-- State after a sequence of `initiatePayment` invocations has finished, in
the order in which they finish; each carries the arguments of its own call. -/
def resolveAll (s : AppState) (calls : List (String × Product × Nat × FetchOutcome)) : AppState :=
  calls.foldl (fun st c => after st (initiatePayment c.1 c.2.1 c.2.2.1 c.2.2.2)) s

/-! ## Basic facts about the handlers -/

theorem truthy_of_getProp_ok {p v : JValue} {key : String}
    (h : getProp p key = .ok v) (hv : truthy v = true) : truthy p = true := by
  cases p with
  | obj props => rfl
  | arr items => rfl
  | undefined => simp [getProp] at h
  | null => simp [getProp] at h
  | _ =>
    simp only [getProp, Except.ok.injEq] at h
    subst h
    simp [truthy] at hv

theorem onData_launch {data payload u : JValue}
    (h1 : getProp data "payload" = .ok payload)
    (h2 : getProp payload "launchUrl" = .ok u) (hu : truthy u = true) :
    onData data = { effects := [.setIframeUrl u], completion := .ok () } := by
  have hp : truthy payload = true := truthy_of_getProp_ok h2 hu
  simp [onData, h1, h2, hp, hu]

theorem onData_falsy_payload {data payload : JValue}
    (h1 : getProp data "payload" = .ok payload) (hp : truthy payload = false) :
    onData data =
      { effects := [.alert "Payment initialization failed"], completion := .ok () } := by
  simp [onData, h1, hp]

theorem onData_falsy_launch {data payload u : JValue}
    (h1 : getProp data "payload" = .ok payload)
    (h2 : getProp payload "launchUrl" = .ok u) (hu : truthy u = false) :
    onData data =
      { effects := [.alert "Payment initialization failed"], completion := .ok () } := by
  by_cases hp : truthy payload = true
  · simp [onData, h1, h2, hp, hu]
  · simp [onData, h1, hp]

theorem getProp_ok_of_truthy {p : JValue} (key : String) (hp : truthy p = true) :
    ∃ v, getProp p key = .ok v := by
  cases p with
  | undefined => simp [truthy] at hp
  | null => simp [truthy] at hp
  | obj props => exact ⟨_, rfl⟩
  | _ => exact ⟨_, rfl⟩

/-- The three ways in which lines 30-34 can end. -/
theorem onData_cases (data : JValue) :
    (∃ e, onData data = { effects := [], completion := .error e }) ∨
    (∃ u, truthy u = true ∧
      onData data = { effects := [.setIframeUrl u], completion := .ok () }) ∨
    onData data =
      { effects := [.alert "Payment initialization failed"], completion := .ok () } := by
  cases h1 : getProp data "payload" with
  | error e => exact Or.inl ⟨e, by simp [onData, h1]⟩
  | ok payload =>
    by_cases hp : truthy payload = true
    · obtain ⟨u, h2⟩ := getProp_ok_of_truthy "launchUrl" hp
      by_cases hu : truthy u = true
      · exact Or.inr (Or.inl ⟨u, hu, onData_launch h1 h2 hu⟩)
      · exact Or.inr (Or.inr (onData_falsy_launch h1 h2 (by simpa using hu)))
    · exact Or.inr (Or.inr (onData_falsy_payload h1 (by simpa using hp)))

theorem launchUrlOf_launch {data payload u : JValue}
    (h1 : getProp data "payload" = .ok payload)
    (h2 : getProp payload "launchUrl" = .ok u) (hu : truthy u = true) :
    launchUrlOf (.parsed data) = some u := by
  cases payload with
  | obj inner =>
    cases data with
    | obj props =>
      simp only [getProp, Except.ok.injEq] at h1 h2
      subst h2
      simp [launchUrlOf, h1, hu]
    | undefined => simp [getProp] at h1
    | null => simp [getProp] at h1
    | _ => simp [getProp] at h1
  | undefined => simp [getProp] at h2
  | null => simp [getProp] at h2
  | _ =>
    simp only [getProp, Except.ok.injEq] at h2
    subst h2
    simp [truthy] at hu

theorem launchUrlOf_none_of_falsy_payload {data payload : JValue}
    (h1 : getProp data "payload" = .ok payload) (hp : truthy payload = false) :
    launchUrlOf (.parsed data) = none := by
  cases data with
  | obj props =>
    simp only [getProp, Except.ok.injEq] at h1
    cases payload with
    | obj inner => simp [truthy] at hp
    | _ => simp [launchUrlOf, h1]
  | _ => rfl

theorem launchUrlOf_none_of_falsy_launch {data payload u : JValue}
    (h1 : getProp data "payload" = .ok payload)
    (h2 : getProp payload "launchUrl" = .ok u) (hu : truthy u = false) :
    launchUrlOf (.parsed data) = none := by
  cases data with
  | obj props =>
    simp only [getProp, Except.ok.injEq] at h1
    cases payload with
    | obj inner =>
      simp only [getProp, Except.ok.injEq] at h2
      subst h2
      simp [launchUrlOf, h1, hu]
    | _ => simp [launchUrlOf, h1]
  | _ => rfl

theorem launchUrlOf_none_of_error {data : JValue} {e : JsError}
    (h1 : getProp data "payload" = .error e) : launchUrlOf (.parsed data) = none := by
  cases data <;> first | rfl | simp [getProp] at h1

theorem initiatePayment_parsed (m : String) (P : Product) (t : Nat) (data : JValue) :
    initiatePayment m P t (.parsed data) =
      catchAll { effects := .fetch (initiateCall m P t) :: .consoleLog "Response:" data ::
                              (onData data).effects,
                 completion := (onData data).completion } := rfl

theorem after_initiatePayment_eq (s : AppState) (m : String) (P : Product) (t : Nat)
    (o : FetchOutcome) :
    after s (initiatePayment m P t o) =
      match launchUrlOf o with
      | some u => { s with iframeUrl := u }
      | none => s := by
  cases o with
  | fetchRejected err => rfl
  | jsonRejected err => rfl
  | parsed data =>
    rw [initiatePayment_parsed]
    cases h1 : getProp data "payload" with
    | error e =>
      rw [launchUrlOf_none_of_error h1]
      simp [onData, h1, catchAll, after, applyEffect]
    | ok payload =>
      by_cases hp : truthy payload = true
      · obtain ⟨u, h2⟩ := getProp_ok_of_truthy "launchUrl" hp
        by_cases hu : truthy u = true
        · rw [launchUrlOf_launch h1 h2 hu, onData_launch h1 h2 hu]
          simp [catchAll, after, applyEffect]
        · have hu2 : truthy u = false := by simpa using hu
          rw [launchUrlOf_none_of_falsy_launch h1 h2 hu2, onData_falsy_launch h1 h2 hu2]
          simp [catchAll, after, applyEffect]
      · have hp2 : truthy payload = false := by simpa using hp
        rw [launchUrlOf_none_of_falsy_payload h1 hp2, onData_falsy_payload h1 hp2]
        simp [catchAll, after, applyEffect]

theorem launchUrlOf_truthy {o : FetchOutcome} {u : JValue} (h : launchUrlOf o = some u) :
    truthy u = true := by
  cases o with
  | fetchRejected err => simp [launchUrlOf] at h
  | jsonRejected err => simp [launchUrlOf] at h
  | parsed data =>
    cases data with
    | obj props =>
      simp only [launchUrlOf] at h
      split at h
      · split at h
        · rename_i hu
          simp only [Option.some.injEq] at h
          subst h
          exact hu
        · simp at h
      · simp at h
    | _ => simp [launchUrlOf] at h

theorem fetchesOf_initiatePayment (m : String) (P : Product) (t : Nat) (o : FetchOutcome) :
    fetchesOf (initiatePayment m P t o).effects = [initiateCall m P t] := by
  cases o with
  | fetchRejected err => rfl
  | jsonRejected err => rfl
  | parsed data =>
    rw [initiatePayment_parsed]
    rcases onData_cases data with ⟨e, h⟩ | ⟨u, _, h⟩ | h <;> rw [h] <;> rfl

theorem completion_initiatePayment (m : String) (P : Product) (t : Nat) (o : FetchOutcome) :
    (initiatePayment m P t o).completion = .ok () := by
  cases o with
  | fetchRejected err => rfl
  | jsonRejected err => rfl
  | parsed data =>
    rw [initiatePayment_parsed]
    rcases onData_cases data with ⟨e, h⟩ | ⟨u, _, h⟩ | h <;> rw [h] <;> rfl

/-! ## Facts about the serialiser of message data -/

mutual
theorem stringify_ok_iff : ∀ v : MessageData,
    (∃ r, v.stringify = .ok r) ↔ v.serialisable = true
  | .undefined => by simp [MessageData.stringify, MessageData.serialisable]
  | .null => by simp [MessageData.stringify, MessageData.serialisable]
  | .bool b => by simp [MessageData.stringify, MessageData.serialisable]
  | .num (.finite text) => by simp [MessageData.stringify, MessageData.serialisable]
  | .num .notFinite => by simp [MessageData.stringify, MessageData.serialisable]
  | .bigint n => by simp [MessageData.stringify, MessageData.serialisable]
  | .str s => by simp [MessageData.stringify, MessageData.serialisable]
  | .cycle up => by simp [MessageData.stringify, MessageData.serialisable]
  | .arr items => by
    have ih := stringifyItems_ok_iff items
    simp only [MessageData.stringify, MessageData.serialisable]
    rw [← ih]
    cases h : MessageData.stringifyItems items <;> simp
  | .obj props => by
    have ih := stringifyProps_ok_iff props
    simp only [MessageData.stringify, MessageData.serialisable]
    rw [← ih]
    cases h : MessageData.stringifyProps props <;> simp
theorem stringifyItems_ok_iff : ∀ items : List MessageData,
    (∃ r, MessageData.stringifyItems items = .ok r) ↔
      MessageData.serialisableItems items = true
  | [] => by simp [MessageData.stringifyItems, MessageData.serialisableItems]
  | v :: rest => by
    have ih1 := stringify_ok_iff v
    have ih2 := stringifyItems_ok_iff rest
    simp only [MessageData.stringifyItems, MessageData.serialisableItems, Bool.and_eq_true]
    rw [← ih1, ← ih2]
    cases h1 : MessageData.stringify v <;> cases h2 : MessageData.stringifyItems rest <;> simp
theorem stringifyProps_ok_iff : ∀ props : List (String × MessageData),
    (∃ r, MessageData.stringifyProps props = .ok r) ↔
      MessageData.serialisableProps props = true
  | [] => by simp [MessageData.stringifyProps, MessageData.serialisableProps]
  | (k, v) :: rest => by
    have ih1 := stringify_ok_iff v
    have ih2 := stringifyProps_ok_iff rest
    simp only [MessageData.stringifyProps, MessageData.serialisableProps, Bool.and_eq_true]
    rw [← ih1, ← ih2]
    cases h1 : MessageData.stringify v with
    | error e => simp
    | ok r =>
      cases r with
      | none => simp
      | some text => cases h2 : MessageData.stringifyProps rest <;> simp
end

/-- A serialisable object is written as a text, never as `undefined`. -/
theorem stringify_obj_of_serialisable {props : List (String × MessageData)}
    (h : (MessageData.obj props).serialisable = true) :
    ∃ text, (MessageData.obj props).stringify = .ok (some text) := by
  obtain ⟨r, hr⟩ := (stringify_ok_iff (.obj props)).mpr h
  simp only [MessageData.stringify] at hr ⊢
  cases hp : MessageData.stringifyProps props with
  | error e => rw [hp] at hr; simp at hr
  | ok members => exact ⟨_, rfl⟩

/-- Data that is not serialisable makes `JSON.stringify` throw. -/
theorem stringify_error_of_not_serialisable {v : MessageData}
    (h : v.serialisable = false) : ∃ e, v.stringify = .error e := by
  cases hs : v.stringify with
  | error e => exact ⟨e, rfl⟩
  | ok r =>
    have := (stringify_ok_iff v).mp ⟨r, hs⟩
    rw [h] at this
    exact absurd this (by decide)

/-! ## Facts about the listener -/

theorem handleFrameMessage_error {data : MessageData} {e : JsError}
    (h : data.getProp "action" = .error e) :
    handleFrameMessage data = { effects := [], completion := .error e } := by
  simp [handleFrameMessage, h]

theorem handleFrameMessage_success {data : MessageData} {text : Option String}
    (h : data.getProp "action" = .ok (.str "success")) (hs : data.stringify = .ok text) :
    handleFrameMessage data =
      { effects := [.alert (plusStringified "Payment Successful: " text),
                    .setIframeUrl .null],
        completion := .ok () } := by
  simp [handleFrameMessage, h, hs, strictEqString]

theorem handleFrameMessage_success_throws {data : MessageData} {e : JsError}
    (h : data.getProp "action" = .ok (.str "success")) (hs : data.stringify = .error e) :
    handleFrameMessage data = { effects := [], completion := .error e } := by
  simp [handleFrameMessage, h, hs, strictEqString]

theorem handleFrameMessage_cancel {data : MessageData}
    (h : data.getProp "action" = .ok (.str "cancel")) :
    handleFrameMessage data =
      { effects := [.alert "Payment Cancelled", .setIframeUrl .null], completion := .ok () } := by
  simp [handleFrameMessage, h, strictEqString]

theorem strictEqString_false {a : MessageData} {text : String} (h : a ≠ .str text) :
    strictEqString a text = false := by
  cases a with
  | str t =>
    have : t ≠ text := fun hc => h (by rw [hc])
    simp [strictEqString, this]
  | _ => rfl

theorem handleFrameMessage_other {data a : MessageData}
    (h : data.getProp "action" = .ok a) (h1 : a ≠ .str "success") (h2 : a ≠ .str "cancel") :
    handleFrameMessage data = { effects := [], completion := .ok () } := by
  simp [handleFrameMessage, h, strictEqString_false h1, strictEqString_false h2]

theorem isObj_of_getProp_str {data : MessageData} {key text : String}
    (h : data.getProp key = .ok (.str text)) : ∃ props, data = .obj props := by
  cases data with
  | obj props => exact ⟨props, rfl⟩
  | undefined => simp [MessageData.getProp] at h
  | null => simp [MessageData.getProp] at h
  | _ => simp [MessageData.getProp] at h

/-- The listener either closes the session or leaves the state alone. -/
theorem after_handleFrameMessage (s : AppState) (data : MessageData) :
    after s (handleFrameMessage data) = s ∨
    after s (handleFrameMessage data) = { s with iframeUrl := .null } := by
  cases h : data.getProp "action" with
  | error e => left; rw [handleFrameMessage_error h]; rfl
  | ok a =>
    by_cases h1 : a = .str "success"
    · subst h1
      cases hs : data.stringify with
      | error e => left; rw [handleFrameMessage_success_throws h hs]; rfl
      | ok text => right; rw [handleFrameMessage_success h hs]; rfl
    · by_cases h2 : a = .str "cancel"
      · right; subst h2; rw [handleFrameMessage_cancel h]; rfl
      · left; rw [handleFrameMessage_other h h1 h2]; rfl

/-! ## Facts about runs of the component -/

theorem step_paymentMethod (s : AppState) (e : Event) :
    (step s e).paymentMethod =
      match e with
      | .select o => o.value
      | _ => s.paymentMethod := by
  cases e with
  | select o => rfl
  | paid m P t o =>
    show (after s (initiatePayment m P t o)).paymentMethod = s.paymentMethod
    rw [after_initiatePayment_eq]
    cases launchUrlOf o <;> rfl
  | message data =>
    show (after s (handleFrameMessage data)).paymentMethod = s.paymentMethod
    rcases after_handleFrameMessage s data with h | h <;> rw [h]

theorem runEvents_paymentMethod (s : AppState) (es : List Event) :
    (runEvents s es).paymentMethod =
      es.foldl (fun m e => match e with
        | .select o => o.value
        | _ => m) s.paymentMethod := by
  induction es generalizing s with
  | nil => rfl
  | cons e rest ih =>
    show (runEvents (step s e) rest).paymentMethod = _
    rw [ih, step_paymentMethod]
    cases e <;> rfl

/-- The stored session value is `null` or a truthy value after every event. -/
theorem step_session (s : AppState) (e : Event)
    (h : s.iframeUrl = .null ∨ truthy s.iframeUrl = true) :
    (step s e).iframeUrl = .null ∨ truthy (step s e).iframeUrl = true := by
  cases e with
  | select o => exact h
  | paid m P t o =>
    show (after s (initiatePayment m P t o)).iframeUrl = .null ∨
      truthy (after s (initiatePayment m P t o)).iframeUrl = true
    rw [after_initiatePayment_eq]
    cases hl : launchUrlOf o with
    | none => exact h
    | some u => exact Or.inr (launchUrlOf_truthy hl)
  | message data =>
    show (after s (handleFrameMessage data)).iframeUrl = .null ∨
      truthy (after s (handleFrameMessage data)).iframeUrl = true
    rcases after_handleFrameMessage s data with h1 | h1 <;> rw [h1]
    · exact h
    · exact Or.inl rfl

theorem runEvents_session (s : AppState) (es : List Event)
    (h : s.iframeUrl = .null ∨ truthy s.iframeUrl = true) :
    (runEvents s es).iframeUrl = .null ∨ truthy (runEvents s es).iframeUrl = true := by
  induction es generalizing s with
  | nil => exact h
  | cons e rest ih => exact ih (step s e) (step_session s e h)

theorem resolveAll_iframeUrl (s : AppState) (calls : List (String × Product × Nat × FetchOutcome)) :
    (resolveAll s calls).iframeUrl =
      (lastLaunchUrl (calls.map (fun c => c.2.2.2))).getD s.iframeUrl := by
  induction calls generalizing s with
  | nil => rfl
  | cons c rest ih =>
    show (resolveAll (after s (initiatePayment c.1 c.2.1 c.2.2.1 c.2.2.2)) rest).iframeUrl = _
    rw [ih, after_initiatePayment_eq]
    simp only [List.map_cons, lastLaunchUrl]
    cases lastLaunchUrl (rest.map (fun c => c.2.2.2)) with
    | some v => rfl
    | none => cases launchUrlOf c.2.2.2 <;> rfl

theorem resolveAll_paymentMethod (s : AppState)
    (calls : List (String × Product × Nat × FetchOutcome)) :
    (resolveAll s calls).paymentMethod = s.paymentMethod := by
  induction calls generalizing s with
  | nil => rfl
  | cons c rest ih =>
    show (resolveAll (after s (initiatePayment c.1 c.2.1 c.2.2.1 c.2.2.2)) rest).paymentMethod = _
    rw [ih, after_initiatePayment_eq]
    cases launchUrlOf c.2.2.2 <;> rfl

theorem resolveAll_append_single (s : AppState)
    (calls : List (String × Product × Nat × FetchOutcome))
    (c : String × Product × Nat × FetchOutcome) :
    resolveAll s (calls ++ [c]) =
      after (resolveAll s calls) (initiatePayment c.1 c.2.1 c.2.2.1 c.2.2.2) := by
  simp [resolveAll, List.foldl_append]

/-! ## Decimal numerals -/

theorem toDigitsCore_append (fuel n : Nat) (ds : List Char) :
    Nat.toDigitsCore 10 fuel n ds = Nat.toDigitsCore 10 fuel n [] ++ ds := by
  induction fuel generalizing n ds with
  | zero => simp [Nat.toDigitsCore]
  | succ fuel ih =>
    simp only [Nat.toDigitsCore]
    split
    · simp
    · rw [ih (n / 10) (Nat.digitChar (n % 10) :: ds), ih (n / 10) [Nat.digitChar (n % 10)]]
      simp

theorem digitChar_value (k : Nat) (hk : k < 10) :
    (Nat.digitChar k).toNat - 48 = k ∧ Nat.digitChar k ≠ '-' := by
  interval_cases k <;> exact ⟨rfl, by decide⟩

theorem toDigitsCore_value (fuel n : Nat) (h : n < fuel) :
    (Nat.toDigitsCore 10 fuel n []).foldl (fun a c => 10 * a + (c.toNat - 48)) 0 = n ∧
    ∀ c ∈ Nat.toDigitsCore 10 fuel n [], c ≠ '-' := by
  induction fuel generalizing n with
  | zero => omega
  | succ fuel ih =>
    have hd := digitChar_value (n % 10) (Nat.mod_lt n (by decide))
    simp only [Nat.toDigitsCore]
    split
    · rename_i h0
      refine ⟨?_, ?_⟩
      · simp only [List.foldl_cons, List.foldl_nil, hd.1]
        omega
      · intro c hc
        simp only [List.mem_singleton] at hc
        rw [hc]; exact hd.2
    · rename_i h0
      have hlt : n / 10 < fuel := by omega
      obtain ⟨hv, hm⟩ := ih (n / 10) hlt
      rw [toDigitsCore_append]
      refine ⟨?_, ?_⟩
      · rw [List.foldl_append, hv]
        simp only [List.foldl_cons, List.foldl_nil, hd.1]
        omega
      · intro c hc
        rcases List.mem_append.mp hc with hc | hc
        · exact hm c hc
        · simp only [List.mem_singleton] at hc
          rw [hc]; exact hd.2

theorem split_at_mark {c : Char} :
    ∀ (l1 l2 r1 r2 : List Char), c ∉ l1 → c ∉ l2 →
      l1 ++ c :: r1 = l2 ++ c :: r2 → l1 = l2 ∧ r1 = r2 := by
  intro l1
  induction l1 with
  | nil =>
    intro l2 r1 r2 _ h2 h
    cases l2 with
    | nil => simpa using h
    | cons y ys =>
      simp only [List.nil_append, List.cons_append, List.cons.injEq] at h
      exact absurd (h.1 ▸ List.mem_cons_self _ _) h2
  | cons x xs ih =>
    intro l2 r1 r2 h1 h2 h
    cases l2 with
    | nil =>
      simp only [List.nil_append, List.cons_append, List.cons.injEq] at h
      exact absurd (h.1 ▸ List.mem_cons_self _ _) h1
    | cons y ys =>
      simp only [List.cons_append, List.cons.injEq] at h
      obtain ⟨hl, hr⟩ := ih ys r1 r2 (fun hc => h1 (List.mem_cons_of_mem _ hc))
        (fun hc => h2 (List.mem_cons_of_mem _ hc)) h.2
      exact ⟨by rw [h.1, hl], hr⟩

theorem decimal_data (n : Nat) : (decimal n).data = Nat.toDigitsCore 10 (n + 1) n [] := rfl

theorem decimal_injective {a b : Nat} (h : decimal a = decimal b) : a = b := by
  have hd : (decimal a).data = (decimal b).data := by rw [h]
  rw [decimal_data, decimal_data] at hd
  have ha := (toDigitsCore_value (a + 1) a (Nat.lt_succ_self a)).1
  have hb := (toDigitsCore_value (b + 1) b (Nat.lt_succ_self b)).1
  rw [hd] at ha
  exact ha.symm.trans hb

theorem decimal_no_dash (n : Nat) : '-' ∉ (decimal n).data := by
  intro hc
  rw [decimal_data] at hc
  exact (toDigitsCore_value (n + 1) n (Nat.lt_succ_self n)).2 '-' hc rfl

theorem referenceNo_data (P : Product) (t : Nat) :
    (referenceNo P t).data =
      "order-".data ++ ((decimal P.id).data ++ '-' :: (decimal t).data) := by
  simp [referenceNo, String.data_append]

theorem referenceNo_inj {P1 P2 : Product} {t1 t2 : Nat}
    (h : referenceNo P1 t1 = referenceNo P2 t2) : P1.id = P2.id ∧ t1 = t2 := by
  have hd : (referenceNo P1 t1).data = (referenceNo P2 t2).data := by rw [h]
  rw [referenceNo_data, referenceNo_data] at hd
  have hs := split_at_mark _ _ _ _ (decimal_no_dash P1.id) (decimal_no_dash P2.id)
    (List.append_cancel_left hd)
  exact ⟨decimal_injective (String.ext hs.1), decimal_injective (String.ext hs.2)⟩

/-! ## The initiation request -/

/-- C1: for every state `s`, product `P`, clock reading `t` and outcome of
the exchange, a click on "Pay Now" issues exactly one `fetch`, a POST to
`/initiate-payment`, whose body is the serialisation of an object with
`reference_no` = "order-" ++ decimal(P.id) ++ "-" ++ decimal(t), `amount` =
`P.price`, `payment_method` = the current `paymentMethod` and `currency` =
"KES"; and after any history of events from the initial state the current
`paymentMethod` is the value of the radio input changed last, "mpesa" when
none was changed. -/
theorem initiatePayment_request (s : AppState) (es : List Event) (P : Product) (t : Nat)
    (outcome : FetchOutcome) :
    (∃ body : JValue,
      fetchesOf (clickPay s P t outcome).effects =
        [{ url := "/initiate-payment", method := "POST",
           headers := [("Content-Type", "application/json")],
           body := stringifyValue body }] ∧
      getProp body "reference_no" =
        .ok (.str ("order-" ++ decimal P.id ++ "-" ++ decimal t)) ∧
      getProp body "amount" = .ok (.num P.price) ∧
      getProp body "payment_method" = .ok (.str s.paymentMethod) ∧
      getProp body "currency" = .ok (.str "KES")) ∧
    (runEvents initialState es).paymentMethod = lastSelected es := by
  refine ⟨⟨requestBody s.paymentMethod P t, ?_, ?_, ?_, ?_, ?_⟩, ?_⟩
  · rw [clickPay, fetchesOf_initiatePayment]; rfl
  · simp [requestBody, getProp, lookup, referenceNo]
  · simp [requestBody, getProp, lookup]
  · simp [requestBody, getProp, lookup]
  · simp [requestBody, getProp, lookup]
  · exact runEvents_paymentMethod initialState es

/-! ## Outcomes of `initiatePayment` -/

/-- C2 fails for the empty launch URL: a parsed body whose
`payload.launchUrl` is the empty string shows the failure notice, stores no
session and renders no frame. -/
theorem initiatePayment_empty_launchUrl :
    alertsOf (initiatePayment "mpesa" { id := 1, name := "Product A", price := 1 } 1700000000000
        (.parsed (.obj [("payload", .obj [("launchUrl", .str "")])]))).effects =
      ["Payment initialization failed"] ∧
    (after initialState
      (initiatePayment "mpesa" { id := 1, name := "Product A", price := 1 } 1700000000000
        (.parsed (.obj [("payload", .obj [("launchUrl", .str "")])])))).iframeUrl = .null ∧
    frameShown (after initialState
      (initiatePayment "mpesa" { id := 1, name := "Product A", price := 1 } 1700000000000
        (.parsed (.obj [("payload", .obj [("launchUrl", .str "")])])))) = false := by
  refine ⟨rfl, rfl, rfl⟩

/-- C2, amended: for every prior state and every parsed body whose payload
carries a non-empty launch URL string `u`, `initiatePayment` completes
normally, stores exactly `u` in `iframeUrl`, keeps `paymentMethod`, shows no
notice, and the right panel then renders the iframe with `u` as its source. -/
theorem initiatePayment_launch (s : AppState) (m : String) (P : Product) (t : Nat)
    (data payload : JValue) (u : String)
    (h1 : getProp data "payload" = .ok payload)
    (h2 : getProp payload "launchUrl" = .ok (.str u)) (hu : u ≠ "") :
    (initiatePayment m P t (.parsed data)).completion = .ok () ∧
    after s (initiatePayment m P t (.parsed data)) =
      { iframeUrl := .str u, paymentMethod := s.paymentMethod } ∧
    alertsOf (initiatePayment m P t (.parsed data)).effects = [] ∧
    renderRightPanel (after s (initiatePayment m P t (.parsed data))) =
      .iframe (.str u) "Pesapal Payment" "payment-iframe" ∧
    (renderRightPanel (after s (initiatePayment m P t (.parsed data)))).frameSrc =
      some (.str u) := by
  have ht : truthy (.str u) = true := by simp [truthy, hu]
  have hr : initiatePayment m P t (.parsed data) =
      { effects := [.fetch (initiateCall m P t), .consoleLog "Response:" data,
                    .setIframeUrl (.str u)],
        completion := .ok () } := by
    rw [initiatePayment_parsed, onData_launch h1 h2 ht]; rfl
  rw [hr]
  refine ⟨rfl, rfl, rfl, ?_, ?_⟩
  · simp [renderRightPanel, after, applyEffect, ht]
  · simp [renderRightPanel, after, applyEffect, ht, PanelChild.frameSrc]

theorem initiatePayment_launch_witness :
    (initiatePayment "card" { id := 2, name := "Product B", price := 2 } 1700000000000
      (.parsed (.obj [("payload", .obj [("launchUrl", .str "https://x")])]))).completion
        = .ok () ∧
    after { iframeUrl := .str "https://old", paymentMethod := "card" }
      (initiatePayment "card" { id := 2, name := "Product B", price := 2 } 1700000000000
        (.parsed (.obj [("payload", .obj [("launchUrl", .str "https://x")])]))) =
      { iframeUrl := .str "https://x", paymentMethod := "card" } ∧
    alertsOf (initiatePayment "card" { id := 2, name := "Product B", price := 2 } 1700000000000
      (.parsed (.obj [("payload", .obj [("launchUrl", .str "https://x")])]))).effects = [] ∧
    renderRightPanel (after { iframeUrl := .str "https://old", paymentMethod := "card" }
      (initiatePayment "card" { id := 2, name := "Product B", price := 2 } 1700000000000
        (.parsed (.obj [("payload", .obj [("launchUrl", .str "https://x")])])))) =
      .iframe (.str "https://x") "Pesapal Payment" "payment-iframe" ∧
    (renderRightPanel (after { iframeUrl := .str "https://old", paymentMethod := "card" }
      (initiatePayment "card" { id := 2, name := "Product B", price := 2 } 1700000000000
        (.parsed (.obj [("payload", .obj [("launchUrl", .str "https://x")])]))))).frameSrc =
      some (.str "https://x") :=
  initiatePayment_launch { iframeUrl := .str "https://old", paymentMethod := "card" } "card"
    { id := 2, name := "Product B", price := 2 } 1700000000000
    (.obj [("payload", .obj [("launchUrl", .str "https://x")])])
    (.obj [("launchUrl", .str "https://x")]) "https://x" rfl rfl (by decide)

/-- C3 fails as stated, at four inputs: for the body `{}` the notice reads
"Payment initialization failed" (lower-case i), not "Payment Initialization
failed"; for the body `null` no notice is shown at all (the property read
throws and is only logged); for a truthy non-string launch URL such as `5`
the value is stored as the session; and with a session already open the body
`{}` leaves that session open. -/
theorem initiatePayment_no_launch_counterexamples :
    (alertsOf (initiatePayment "mpesa" { id := 1, name := "Product A", price := 1 }
        1700000000000 (.parsed (.obj []))).effects = ["Payment initialization failed"] ∧
      "Payment initialization failed" ≠ "Payment Initialization failed") ∧
    alertsOf (initiatePayment "mpesa" { id := 1, name := "Product A", price := 1 }
        1700000000000 (.parsed .null)).effects = [] ∧
    (after initialState (initiatePayment "mpesa" { id := 1, name := "Product A", price := 1 }
        1700000000000
        (.parsed (.obj [("payload", .obj [("launchUrl", .num 5)])])))).iframeUrl = .num 5 ∧
    (after { iframeUrl := .str "https://a", paymentMethod := "mpesa" }
      (initiatePayment "mpesa" { id := 1, name := "Product A", price := 1 }
        1700000000000 (.parsed (.obj [])))).iframeUrl = .str "https://a" :=
  ⟨⟨rfl, by decide⟩, rfl, rfl, rfl⟩

/-- C3, amended: for every prior state and every parsed body other than
`null` whose `payload` is falsy, or whose `payload.launchUrl` is falsy (for
example `{}`, `{ payload: {} }`, `{ payload: { launchUrl: "" } }`),
`initiatePayment` completes normally, shows exactly one notice with the text
"Payment initialization failed" and leaves both state cells as they were, so
the frame is shown after the call exactly when it was shown before. -/
theorem initiatePayment_no_launch (s : AppState) (m : String) (P : Product) (t : Nat)
    (data payload : JValue)
    (h1 : getProp data "payload" = .ok payload)
    (h2 : truthy payload = false ∨
      ∃ u, getProp payload "launchUrl" = .ok u ∧ truthy u = false) :
    (initiatePayment m P t (.parsed data)).completion = .ok () ∧
    alertsOf (initiatePayment m P t (.parsed data)).effects =
      ["Payment initialization failed"] ∧
    after s (initiatePayment m P t (.parsed data)) = s ∧
    frameShown (after s (initiatePayment m P t (.parsed data))) = frameShown s := by
  have hd : onData data =
      { effects := [.alert "Payment initialization failed"], completion := .ok () } := by
    rcases h2 with hp | ⟨u, hl, hu⟩
    · exact onData_falsy_payload h1 hp
    · exact onData_falsy_launch h1 hl hu
  have hr : initiatePayment m P t (.parsed data) =
      { effects := [.fetch (initiateCall m P t), .consoleLog "Response:" data,
                    .alert "Payment initialization failed"],
        completion := .ok () } := by
    rw [initiatePayment_parsed, hd]; rfl
  rw [hr]
  exact ⟨rfl, rfl, rfl, rfl⟩

theorem initiatePayment_no_launch_witness :
    (initiatePayment "mpesa" { id := 3, name := "Product C", price := 3 } 1700000000000
      (.parsed (.obj [("payload", .obj [])]))).completion = .ok () ∧
    alertsOf (initiatePayment "mpesa" { id := 3, name := "Product C", price := 3 }
      1700000000000 (.parsed (.obj [("payload", .obj [])]))).effects =
      ["Payment initialization failed"] ∧
    after initialState (initiatePayment "mpesa" { id := 3, name := "Product C", price := 3 }
      1700000000000 (.parsed (.obj [("payload", .obj [])]))) = initialState ∧
    frameShown (after initialState
      (initiatePayment "mpesa" { id := 3, name := "Product C", price := 3 }
        1700000000000 (.parsed (.obj [("payload", .obj [])])))) = frameShown initialState :=
  initiatePayment_no_launch initialState "mpesa" { id := 3, name := "Product C", price := 3 }
    1700000000000 (.obj [("payload", .obj [])]) (.obj []) rfl
    (Or.inr ⟨.undefined, rfl, rfl⟩)

/-- C4: for every prior state, when `fetch` rejects or `res.json()` rejects,
`initiatePayment` completes normally, shows no notice, writes the error with
`console.error` and nothing else to the console, and leaves `iframeUrl` and
`paymentMethod` as they were. -/
theorem initiatePayment_failure (s : AppState) (m : String) (P : Product) (t : Nat)
    (err : JsError) :
    ((initiatePayment m P t (.fetchRejected err)).completion = .ok () ∧
      alertsOf (initiatePayment m P t (.fetchRejected err)).effects = [] ∧
      errorsLogged (initiatePayment m P t (.fetchRejected err)).effects = [err] ∧
      after s (initiatePayment m P t (.fetchRejected err)) = s) ∧
    ((initiatePayment m P t (.jsonRejected err)).completion = .ok () ∧
      alertsOf (initiatePayment m P t (.jsonRejected err)).effects = [] ∧
      errorsLogged (initiatePayment m P t (.jsonRejected err)).effects = [err] ∧
      after s (initiatePayment m P t (.jsonRejected err)) = s) :=
  ⟨⟨rfl, rfl, rfl, rfl⟩, ⟨rfl, rfl, rfl, rfl⟩⟩

/-! ## The message listener -/

/-- C5 fails as stated for payloads that `JSON.stringify` cannot write:
with a session open, the messages `{ action: "success", amount: 10n }` and
`{ action: "success", self: <the message itself> }` have `data.action` equal
to "success", yet the listener throws a TypeError before `alert`, shows no
notice and leaves the session open. -/
theorem handleFrameMessage_unserialisable :
    (MessageData.getProp (.obj [("action", .str "success"), ("amount", .bigint 10)]) "action" =
        .ok (.str "success") ∧
      (handleFrameMessage (.obj [("action", .str "success"), ("amount", .bigint 10)])).completion
        = .error bigIntError ∧
      alertsOf (handleFrameMessage
        (.obj [("action", .str "success"), ("amount", .bigint 10)])).effects = [] ∧
      (after { iframeUrl := .str "https://x", paymentMethod := "card" }
        (handleFrameMessage
          (.obj [("action", .str "success"), ("amount", .bigint 10)]))).iframeUrl =
        .str "https://x") ∧
    (MessageData.getProp (.obj [("action", .str "success"), ("self", .cycle 0)]) "action" =
        .ok (.str "success") ∧
      (handleFrameMessage (.obj [("action", .str "success"), ("self", .cycle 0)])).completion
        = .error circularError ∧
      alertsOf (handleFrameMessage
        (.obj [("action", .str "success"), ("self", .cycle 0)])).effects = [] ∧
      (after { iframeUrl := .str "https://x", paymentMethod := "card" }
        (handleFrameMessage
          (.obj [("action", .str "success"), ("self", .cycle 0)]))).iframeUrl =
        .str "https://x") :=
  ⟨⟨rfl, rfl, rfl, rfl⟩, ⟨rfl, rfl, rfl, rfl⟩⟩

/-- C5, amended: for every prior state and every message whose `data.action`
is "cancel", or is "success" with a payload that holds no BigInt and no
reference back to itself, the listener completes normally, shows exactly one
notice, sets `iframeUrl` to `null` and keeps `paymentMethod`; for "success"
the notice is "Payment Successful: " followed by the JSON text of the whole
message data, for "cancel" it is "Payment Cancelled"; and for the message
`{ action: "success", txId: "abc" }` the notice contains "abc". -/
theorem handleFrameMessage_closing (s : AppState) (data : MessageData) (action : String)
    (h : data.getProp "action" = .ok (.str action))
    (ha : action = "success" ∨ action = "cancel")
    (hs : action = "success" → data.serialisable = true) :
    (handleFrameMessage data).completion = .ok () ∧
    after s (handleFrameMessage data) =
      { iframeUrl := .null, paymentMethod := s.paymentMethod } ∧
    (alertsOf (handleFrameMessage data).effects).length = 1 ∧
    (action = "success" → ∃ text, data.stringify = .ok (some text) ∧
      alertsOf (handleFrameMessage data).effects = ["Payment Successful: " ++ text]) ∧
    (action = "cancel" →
      alertsOf (handleFrameMessage data).effects = ["Payment Cancelled"]) ∧
    (alertsOf (handleFrameMessage
        (.obj [("action", .str "success"), ("txId", .str "abc")])).effects =
      ["Payment Successful: \x7b\"action\":\"success\",\"txId\":\"" ++ "abc" ++ "\"\x7d"]) := by
  obtain ⟨props, hd⟩ := isObj_of_getProp_str h
  rcases ha with ha | ha
  · subst ha
    subst hd
    obtain ⟨text, ht⟩ := stringify_obj_of_serialisable (hs rfl)
    rw [handleFrameMessage_success h ht]
    refine ⟨rfl, rfl, rfl, ?_, ?_, rfl⟩
    · intro _
      exact ⟨text, ht, rfl⟩
    · intro hc
      exact absurd hc (by decide)
  · subst ha
    rw [handleFrameMessage_cancel h]
    refine ⟨rfl, rfl, rfl, ?_, ?_, rfl⟩
    · intro hc
      exact absurd hc (by decide)
    · intro _
      rfl

theorem handleFrameMessage_closing_witness :
    (handleFrameMessage (.obj [("action", .str "success"), ("txId", .str "abc")])).completion
      = .ok () ∧
    after { iframeUrl := .str "https://x", paymentMethod := "card" }
      (handleFrameMessage (.obj [("action", .str "success"), ("txId", .str "abc")])) =
      { iframeUrl := .null, paymentMethod := "card" } :=
  have h := handleFrameMessage_closing { iframeUrl := .str "https://x", paymentMethod := "card" }
    (.obj [("action", .str "success"), ("txId", .str "abc")]) "success" rfl (Or.inl rfl)
    (fun _ => rfl)
  ⟨h.1, h.2.1⟩

/-- C6 fails for an absent or null payload: reading `event.data.action` of
`null` (and of `undefined`) throws a TypeError that the listener does not
catch. -/
theorem handleFrameMessage_null_throws :
    (MessageData.getProp .null "action" ≠ .ok (.str "success") ∧
      MessageData.getProp .null "action" ≠ .ok (.str "cancel")) ∧
    (handleFrameMessage .null).completion = .error (cannotRead "action") ∧
    (handleFrameMessage .null).completion ≠ .ok () ∧
    (handleFrameMessage .undefined).completion ≠ .ok () := by
  refine ⟨⟨?_, ?_⟩, rfl, ?_, ?_⟩ <;> simp [MessageData.getProp, handleFrameMessage]

/-- C6, amended: for every prior state and every message whose
`data.action` is neither "success" nor "cancel" (another action, no action
field, a non-object payload, a null or absent payload), the listener performs
no effect at all: it shows no notice and leaves `iframeUrl` and
`paymentMethod` as they were; and it completes normally whenever the payload
is neither `null` nor `undefined`. -/
theorem handleFrameMessage_ignored (s : AppState) (data : MessageData)
    (h1 : data.getProp "action" ≠ .ok (.str "success"))
    (h2 : data.getProp "action" ≠ .ok (.str "cancel")) :
    (handleFrameMessage data).effects = [] ∧
    alertsOf (handleFrameMessage data).effects = [] ∧
    after s (handleFrameMessage data) = s ∧
    (data ≠ .null ∧ data ≠ .undefined → (handleFrameMessage data).completion = .ok ()) := by
  cases h : data.getProp "action" with
  | error e =>
    rw [handleFrameMessage_error h]
    refine ⟨rfl, rfl, rfl, ?_⟩
    rintro ⟨hn, hu⟩
    cases data with
    | null => exact absurd rfl hn
    | undefined => exact absurd rfl hu
    | obj props => simp [MessageData.getProp] at h
    | _ => simp [MessageData.getProp] at h
  | ok a =>
    have ha1 : a ≠ .str "success" := fun hc => h1 (by rw [h, hc])
    have ha2 : a ≠ .str "cancel" := fun hc => h2 (by rw [h, hc])
    rw [handleFrameMessage_other h ha1 ha2]
    exact ⟨rfl, rfl, rfl, fun _ => rfl⟩

theorem handleFrameMessage_ignored_witness :
    (handleFrameMessage (.obj [("action", .str "ping")])).effects = [] ∧
    alertsOf (handleFrameMessage (.obj [("action", .str "ping")])).effects = [] ∧
    after { iframeUrl := .str "https://x", paymentMethod := "card" }
      (handleFrameMessage (.obj [("action", .str "ping")])) =
      { iframeUrl := .str "https://x", paymentMethod := "card" } ∧
    (MessageData.obj [("action", .str "ping")] ≠ .null ∧
      MessageData.obj [("action", .str "ping")] ≠ .undefined →
      (handleFrameMessage (.obj [("action", .str "ping")])).completion = .ok ()) :=
  handleFrameMessage_ignored { iframeUrl := .str "https://x", paymentMethod := "card" }
    (.obj [("action", .str "ping")])
    (by simp [MessageData.getProp, MessageData.lookup])
    (by simp [MessageData.getProp, MessageData.lookup])

/-! ## Rendering and races -/

/-- C7: in every state reached from the initial state by any sequence of
radio changes, finished `initiatePayment` invocations and frame messages, the
iframe is rendered if and only if `iframeUrl` is not `null`, the rendered
source is the stored value, and the stored value is `null` or truthy (never a
falsy value such as the empty string). -/
theorem rendering_contract (es : List Event) :
    (frameShown (runEvents initialState es) = true ↔
      (runEvents initialState es).iframeUrl ≠ .null) ∧
    (∀ src, (renderRightPanel (runEvents initialState es)).frameSrc = some src →
      src = (runEvents initialState es).iframeUrl) ∧
    ((runEvents initialState es).iframeUrl = .null ∨
      truthy (runEvents initialState es).iframeUrl = true) := by
  have hinv := runEvents_session initialState es (Or.inl rfl)
  refine ⟨?_, ?_, hinv⟩
  · rcases hinv with h | h
    · simp [frameShown, renderRightPanel, h, truthy, PanelChild.frameSrc]
    · constructor
      · intro _ hc
        rw [hc] at h
        simp [truthy] at h
      · intro _
        simp [frameShown, renderRightPanel, h, PanelChild.frameSrc]
  · intro src hsrc
    by_cases ht : truthy (runEvents initialState es).iframeUrl = true
    · simp [renderRightPanel, ht, PanelChild.frameSrc] at hsrc
      exact hsrc.symm
    · simp [renderRightPanel, ht, PanelChild.frameSrc] at hsrc

/-- C10 fails as stated: from the initial state, a response carrying the
launch URL "https://a" followed by the response `{}` leaves the session at
"https://a", whereas the last response alone leaves it at `null`. -/
theorem last_resolved_counterexample :
    (resolveAll initialState
      [("mpesa", { id := 1, name := "Product A", price := 1 }, 1700000000000,
          .parsed (.obj [("payload", .obj [("launchUrl", .str "https://a")])])),
       ("mpesa", { id := 2, name := "Product B", price := 2 }, 1700000000001,
          .parsed (.obj []))]).iframeUrl = .str "https://a" ∧
    (resolveAll initialState
      [("mpesa", { id := 2, name := "Product B", price := 2 }, 1700000000001,
          .parsed (.obj []))]).iframeUrl = .null ∧
    (resolveAll initialState
      [("mpesa", { id := 1, name := "Product A", price := 1 }, 1700000000000,
          .parsed (.obj [("payload", .obj [("launchUrl", .str "https://a")])])),
       ("mpesa", { id := 2, name := "Product B", price := 2 }, 1700000000001,
          .parsed (.obj []))]).iframeUrl ≠
    (resolveAll initialState
      [("mpesa", { id := 2, name := "Product B", price := 2 }, 1700000000001,
          .parsed (.obj []))]).iframeUrl := by
  refine ⟨rfl, rfl, ?_⟩
  show JValue.str "https://a" ≠ JValue.null
  simp

/-- C10, amended: for every prior state and every sequence of invocations
taken in the order in which they finish, `iframeUrl` afterwards is the launch
URL of the last response that carries a truthy one, and the prior value when
none does, whatever the arguments of the calls; in particular when one more
response finishes, `iframeUrl` becomes its launch URL if it carries one and
is otherwise what the earlier responses left. `paymentMethod` is untouched. -/
theorem last_launch_wins (s : AppState)
    (calls : List (String × Product × Nat × FetchOutcome))
    (c : String × Product × Nat × FetchOutcome) :
    (resolveAll s calls).iframeUrl =
      (lastLaunchUrl (calls.map (fun x => x.2.2.2))).getD s.iframeUrl ∧
    (resolveAll s (calls ++ [c])).iframeUrl =
      (launchUrlOf c.2.2.2).getD (resolveAll s calls).iframeUrl ∧
    (resolveAll s calls).paymentMethod = s.paymentMethod := by
  refine ⟨resolveAll_iframeUrl s calls, ?_, resolveAll_paymentMethod s calls⟩
  rw [resolveAll_append_single, after_initiatePayment_eq]
  cases launchUrlOf c.2.2.2 <;> rfl

/-! ## The reference number -/

/-- C8 fails as stated: two invocations on Product A that both read the
clock value 1700000000000 send the same `reference_no`. -/
theorem reference_same_millisecond :
    fetchesOf (clickPay initialState { id := 1, name := "Product A", price := 1 }
      1700000000000 (.parsed (.obj []))).effects =
      [{ url := "/initiate-payment", method := "POST",
         headers := [("Content-Type", "application/json")],
         body := some ("\x7b\"reference_no\":\"order-1-1700000000000\",\"amount\":1," ++
           "\"payment_method\":\"mpesa\",\"currency\":\"KES\"\x7d") }] ∧
    fetchesOf (clickPay initialState { id := 1, name := "Product A", price := 1 }
      1700000000000 (.fetchRejected { name := "TypeError", message := "Failed to fetch" })).effects =
      [{ url := "/initiate-payment", method := "POST",
         headers := [("Content-Type", "application/json")],
         body := some ("\x7b\"reference_no\":\"order-1-1700000000000\",\"amount\":1," ++
           "\"payment_method\":\"mpesa\",\"currency\":\"KES\"\x7d") }] ∧
    referenceNo { id := 1, name := "Product A", price := 1 } 1700000000000 =
      "order-1-1700000000000" :=
  ⟨rfl, rfl, rfl⟩

/-- C8, amended: for every product `P` and any two invocations that read the
clock values `t1` and `t2`, the `reference_no` of the first request contains
the decimal identifier of `P`, and the two references differ if and only if
the two clock readings differ. -/
theorem reference_distinct_iff (P : Product) (t1 t2 : Nat) :
    (∃ pre post, referenceNo P t1 = pre ++ decimal P.id ++ post) ∧
    (referenceNo P t1 ≠ referenceNo P t2 ↔ t1 ≠ t2) := by
  refine ⟨⟨"order-", "-" ++ decimal t1, ?_⟩, ?_⟩
  · simp [referenceNo, String.append_assoc]
  · constructor
    · intro h ht
      exact h (by rw [ht])
    · intro ht h
      exact ht (referenceNo_inj h).2

/-- C9: the reference "order-" ++ decimal(i) ++ "-" ++ decimal(t) built by
`referenceNo` determines the pair of product id and timestamp: equal
references come from equal ids and equal timestamps. -/
theorem reference_determines_pair (P1 P2 : Product) (t1 t2 : Nat)
    (h : referenceNo P1 t1 = referenceNo P2 t2) : P1.id = P2.id ∧ t1 = t2 :=
  referenceNo_inj h

theorem reference_determines_pair_witness :
    referenceNo { id := 12, name := "Product A", price := 1 } 3 =
      referenceNo { id := 12, name := "Product B", price := 2 } 3 ∧
    ((12 : Nat) = 12 ∧ (3 : Nat) = 3) :=
  ⟨rfl, reference_determines_pair { id := 12, name := "Product A", price := 1 }
    { id := 12, name := "Product B", price := 2 } 3 3 rfl⟩

end App
